import Mathlib

/-!
Shallow embedding of `src/queryProviderFactory.ts` (the urql-wrapper library):
the query-result classifier hook `useAppQuery`, and the bounded-retry wrapper
hook `useRetryableQuery`.

Modelling notes.
* The underlying urql client is an external collaborator; one observation of it
  is a `ClientState` record `{data, fetching, error}` (what `useQuery` returns),
  and its execute function `_refetch` is an abstract function
  `exec : RequestPolicy → R` whose argument records the request policy that an
  invocation passes.  The query document and the variables only flow into the
  client, so they are absorbed into the `ClientState` argument.
* A hook render is a pure function of its props and the current client state.
  The retry wrapper's mutable ref `retryCounts.current` is an explicit `Nat`
  argument `n` (the value of the ref during that render).
* Thrown JS values are modelled by `Thrown E`: either an `Error` instance
  (payload of type `E`) or any other value (`instanceof Error` fails).
  A selector that may throw is a function into `Except (Thrown E) S`.
* The JS `Error` objects this library itself constructs are modelled by
  `AppError`: the urql `CombinedError` passed through (line 234 of the source),
  `NoDataError`, `SelectorError` (with its optional `cause`), and the two plain
  `new Error(msg)` values built by the retry wrapper.
-/

namespace UrqlWrapper

/-- urql request policies (`RequestPolicy` in urql). -/
inductive RequestPolicy where
  | cacheFirst
  | cacheAndNetwork
  | networkOnly
  | cacheOnly
  deriving DecidableEq, Repr

/-- A value thrown by a selector: either a JS `Error` instance (so
`error instanceof Error` holds, payload type `E`), or any non-`Error` value. -/
inductive Thrown (E : Type) where
  | jsError (e : E)
  | nonError
  deriving DecidableEq

/-- The JS `Error` values that can appear in an error result.
`clientError` is the urql `CombinedError` (type `C`) passed through unchanged;
`noDataError` is `class NoDataError`; `selectorError` is `class SelectorError`
with its optional `cause`; `plainError msg` is a bare `new Error(msg)` as the
retry wrapper constructs. -/
inductive AppError (E C : Type) where
  | clientError (e : C)
  | noDataError
  | selectorError (cause : Option E)
  | plainError (msg : String)
  deriving DecidableEq

/-- The result union.  The source declares `QueryResult` as
`PausedResult | FetchingResult | SuccessResult | ErrorResult` and the retry
wrapper widens it with `RetryingResult`; here the widened union is one
inductive (the classifier never produces `retrying`). -/
inductive QueryResult (S E C : Type) where
  | paused
  | fetching
  | success (data : S)
  | error (e : AppError E C)
  | retrying (counts : Nat)
  deriving DecidableEq

/-- `const PausedResult = (): PausedResult => ({status: 'paused', ...})`. -/
def PausedResult {S E C : Type} : QueryResult S E C :=
  QueryResult.paused

/-- `const FetchingResult = (): FetchingResult => ({status: 'fetching', ...})`. -/
def FetchingResult {S E C : Type} : QueryResult S E C :=
  QueryResult.fetching

/-- `const SuccessResult = (data) => ({status: 'success', data})`. -/
def SuccessResult {S E C : Type} (data : S) : QueryResult S E C :=
  QueryResult.success data

/-- `const ErrorResult = (error) => ({status: 'error', data: undefined, error})`. -/
def ErrorResult {S E C : Type} (e : AppError E C) : QueryResult S E C :=
  QueryResult.error e

/-- `const RetryingResult = (counts) => ({status: 'retrying', counts})`. -/
def RetryingResult {S E C : Type} (counts : Nat) : QueryResult S E C :=
  QueryResult.retrying counts

/-- `query.result.status === 'fetching'`, the tag test the retry effect uses. -/
def QueryResult.isFetching {S E C : Type} : QueryResult S E C → Bool
  | QueryResult.fetching => true
  | _ => false

/-- One observation of the underlying urql client: the destructured
`[{data, fetching, error}, _refetch]` state. -/
structure ClientState (Data C : Type) where
  data : Option Data
  fetching : Bool
  error : Option C

/-- `UseAppQueryProps` (the query document and variables are absorbed into the
client observation; `paused?: boolean` is a `Bool`). -/
structure UseAppQueryProps (Data S E : Type) where
  selector : Data → Except (Thrown E) S
  paused : Bool
  requestPolicy : RequestPolicy

/-- `UseAppQueryReturn`: the classified result, the wrapped `refetch` action
(of abstract type `R`, the execute function's value), and the internal
`__rawValue`. -/
structure UseAppQueryReturn (Result Data R : Type) where
  result : Result
  refetch : R
  __rawValue : Option Data

/-- The `try/catch` around `SuccessResult(props.selector(data))` (lines
241-249): a normal return becomes `success`; a thrown `Error` becomes
`SelectorError` with that error as cause; a thrown non-`Error` becomes
`SelectorError` with no cause. -/
def applySelector {Data S E C : Type} (selector : Data → Except (Thrown E) S)
    (d : Data) : QueryResult S E C :=
  match selector d with
  | Except.ok v => SuccessResult v
  | Except.error (Thrown.jsError e) => ErrorResult (AppError.selectorError (some e))
  | Except.error Thrown.nonError => ErrorResult (AppError.selectorError none)

/-- `useAppQuery` (lines 197-250): wraps one client observation into a
`QueryResult`, a `refetch` that invokes the execute function with
`'network-only'`, and `__rawValue := data`. -/
def useAppQuery {Data S E C R : Type} (props : UseAppQueryProps Data S E)
    (client : ClientState Data C) (exec : RequestPolicy → R) :
    UseAppQueryReturn (QueryResult S E C) Data R :=
  let refetch : R := exec RequestPolicy.networkOnly
  let resultWrapper : QueryResult S E C → UseAppQueryReturn (QueryResult S E C) Data R :=
    fun r => { result := r, refetch := refetch, __rawValue := client.data }
  if props.paused then
    resultWrapper PausedResult
  else if client.fetching then
    resultWrapper FetchingResult
  else
    match client.error with
    | some e => resultWrapper (ErrorResult (AppError.clientError e))
    | none =>
      match client.data with
      | none => resultWrapper (ErrorResult AppError.noDataError)
      | some d => resultWrapper (applySelector props.selector d)

/-- `boolean | 'bail'`, the codomain of `retryIf`. -/
inductive BoolOrBail where
  | bool (b : Bool)
  | bail
  deriving DecidableEq

/-- `UseRetryableQueryProps` (document and variables again absorbed into the
client observation).  Note: it has no request-policy field. -/
structure UseRetryableQueryProps (Data S E : Type) where
  pause : Bool
  selector : Data → Except (Thrown E) S
  retryIf : Option Data → BoolOrBail
  retryDelay : Option (Nat → Nat)
  maxRetryCount : Nat

/-- `input.pause || retryCounts.current >= input.maxRetryCount` (line 61). -/
def retryShouldPause {Data S E : Type} (input : UseRetryableQueryProps Data S E)
    (n : Nat) : Bool :=
  input.pause || decide (n ≥ input.maxRetryCount)

/-- The argument record the retry wrapper passes to `useAppQuery`
(lines 62-68): caller's query pieces, `paused := shouldPause`, and
`requestPolicy: 'network-only'` hard-coded. -/
def retryAppQueryProps {Data S E : Type} (input : UseRetryableQueryProps Data S E)
    (n : Nat) : UseAppQueryProps Data S E :=
  { selector := input.selector
    paused := retryShouldPause input n
    requestPolicy := RequestPolicy.networkOnly }

/-- `input.retryDelay?.(nextRetryCount) ?? nextRetryCount * 1000` with
`nextRetryCount = n + 1` (lines 77-78). -/
def retryDelayMs {Data S E : Type} (input : UseRetryableQueryProps Data S E)
    (n : Nat) : Nat :=
  match input.retryDelay with
  | some f => f (n + 1)
  | none => (n + 1) * 1000

/-- The body of the deferred callback `wait(delay).then(() => ...)`
(lines 80-83), run when the delay elapses.  `wait` (in `./utils`, not under
`src/`) is, per the spec, a plain delay-then-run deferred task.  The effect
registers no cleanup function, so unmounting neither cancels the pending
`wait` nor is consulted by the callback: the closure runs over the still-live
ref regardless of `mounted`.  Returns the new value of `retryCounts.current`
and whether `query.refetch()` is invoked. -/
def retryFire (mounted : Bool) (n maxRetryCount : Nat) : Nat × Bool :=
  if n ≥ maxRetryCount then (n, false) else (n + 1, true)

/-- Everything one render of `useRetryableQuery` does: the props it hands to
`useAppQuery`, the classifier's output, the predicate's verdict, the delay it
schedules (from the effect body, `none` when an early `return` fires), and the
value it returns to the caller. -/
structure RetryableRender (S E C Data R : Type) where
  appQueryProps : UseAppQueryProps Data S E
  query : UseAppQueryReturn (QueryResult S E C) Data R
  shouldRetry : BoolOrBail
  scheduledDelay : Option Nat
  returned : UseAppQueryReturn (QueryResult S E C) Data R

/-- `useRetryableQuery` (lines 53-109), one render with the retry ref at `n`.
The effect body (lines 72-84): bail out unless `shouldRetry === true`, the
classified status is `'fetching'`, and `n < maxRetryCount`; otherwise schedule
`retryDelayMs`.  The returned result (lines 86-108): budget exhausted beats
everything, then `'bail'`, then `true` (a `retrying` tag with the current
count), else the classifier's output passed through. -/
def useRetryableQuery {Data S E C R : Type}
    (input : UseRetryableQueryProps Data S E) (n : Nat)
    (client : ClientState Data C) (exec : RequestPolicy → R) :
    RetryableRender S E C Data R :=
  let props := retryAppQueryProps input n
  let query := useAppQuery props client exec
  let shouldRetry := input.retryIf query.__rawValue
  let scheduledDelay : Option Nat :=
    if shouldRetry ≠ BoolOrBail.bool true then none
    else if !query.result.isFetching then none
    else if n ≥ input.maxRetryCount then none
    else some (retryDelayMs input n)
  let result : QueryResult S E C :=
    if n ≥ input.maxRetryCount then
      ErrorResult (AppError.plainError "Max retry count exceeded")
    else
      match shouldRetry with
      | BoolOrBail.bail => ErrorResult (AppError.plainError "Bailed")
      | BoolOrBail.bool true => RetryingResult n
      | BoolOrBail.bool false => query.result
  { appQueryProps := props
    query := query
    shouldRetry := shouldRetry
    scheduledDelay := scheduledDelay
    returned := { query with result := result } }

/-- Helper: every branch of the classifier wraps its result with
`__rawValue := data`, so the raw pre-selector client data is always exposed. -/
theorem useAppQuery_rawValue {Data S E C R : Type}
    (props : UseAppQueryProps Data S E) (client : ClientState Data C)
    (exec : RequestPolicy → R) :
    (useAppQuery props client exec).__rawValue = client.data := by
  simp only [useAppQuery]
  repeat' split
  all_goals rfl

/-- Claim C1: the classifier is a first-match-wins cascade: a paused caller
gets `paused` irrespective of client state; else a fetching client gives
`fetching`; else a client error is wrapped in `error`; else absent data gives
the no-data `error`; else the selector is applied to the data. -/
theorem useAppQuery_cascade {Data S E C R : Type}
    (props : UseAppQueryProps Data S E) (client : ClientState Data C)
    (exec : RequestPolicy → R) :
    (props.paused = true →
      (useAppQuery props client exec).result = QueryResult.paused) ∧
    (props.paused = false → client.fetching = true →
      (useAppQuery props client exec).result = QueryResult.fetching) ∧
    (∀ e, props.paused = false → client.fetching = false →
      client.error = some e →
      (useAppQuery props client exec).result
        = QueryResult.error (AppError.clientError e)) ∧
    (props.paused = false → client.fetching = false → client.error = none →
      client.data = none →
      (useAppQuery props client exec).result
        = QueryResult.error AppError.noDataError) ∧
    (∀ d, props.paused = false → client.fetching = false →
      client.error = none → client.data = some d →
      (useAppQuery props client exec).result
        = applySelector props.selector d) := by
  refine ⟨?_, ?_, ?_, ?_, ?_⟩ <;> intros <;>
    simp_all [useAppQuery, PausedResult, FetchingResult, ErrorResult]

/-- Witness for C1: at a concrete paused input the cascade yields `paused`,
and at a concrete errored input it wraps the client error. -/
theorem useAppQuery_cascade_witness :
    (@useAppQuery Nat Nat Unit Unit Unit
        ⟨fun d => Except.ok d, true, RequestPolicy.cacheFirst⟩
        ⟨some 5, true, none⟩ (fun _ => ())).result = QueryResult.paused ∧
    (@useAppQuery Nat Nat Unit Unit Unit
        ⟨fun d => Except.ok d, false, RequestPolicy.cacheFirst⟩
        ⟨some 5, false, some ()⟩ (fun _ => ())).result
      = QueryResult.error (AppError.clientError ()) :=
  ⟨(useAppQuery_cascade _ _ _).1 rfl,
   (useAppQuery_cascade _ _ _).2.2.1 () rfl rfl rfl⟩

/-- Counterexample to C2 as stated: it quantifies over every input where the
client reports no error and data is present, but omits the earlier cascade
steps.  At the concrete input below the client has `error = none` and
`data = some 5`, the selector returns `Except.ok 5` without raising, yet the
caller passed `paused = true`, so the result is `paused`, not `success 5`. -/
theorem useAppQuery_selector_not_unconditional :
    (@useAppQuery Nat Nat Unit Unit Unit
        ⟨fun d => Except.ok d, true, RequestPolicy.cacheFirst⟩
        ⟨some 5, false, none⟩ (fun _ => ())).result = QueryResult.paused ∧
    (QueryResult.paused ≠ (QueryResult.success 5 : QueryResult Nat Unit Unit)) := by
  exact ⟨rfl, by decide⟩

/-- Claim C2 (amended): for every input where the caller is not paused, the
client is not fetching, reports no error, and data is present: a selector that
returns `v` normally yields `success v`; a selector that throws an `Error` `e`
yields the `error` variant with a selector-failed cause preserving `e` as the
cause chain; a selector that throws a non-`Error` yields the selector-failed
cause with no cause chain.  No exception escapes the hook: the embedding of
the `try/catch` is total, every thrown value is converted to a result. -/
theorem useAppQuery_selector {Data S E C R : Type}
    (props : UseAppQueryProps Data S E) (client : ClientState Data C)
    (exec : RequestPolicy → R) (d : Data)
    (hp : props.paused = false) (hf : client.fetching = false)
    (he : client.error = none) (hd : client.data = some d) :
    (∀ v, props.selector d = Except.ok v →
      (useAppQuery props client exec).result = QueryResult.success v) ∧
    (∀ e, props.selector d = Except.error (Thrown.jsError e) →
      (useAppQuery props client exec).result
        = QueryResult.error (AppError.selectorError (some e))) ∧
    (props.selector d = Except.error Thrown.nonError →
      (useAppQuery props client exec).result
        = QueryResult.error (AppError.selectorError none)) := by
  refine ⟨?_, ?_, ?_⟩ <;> intros <;>
    simp_all [useAppQuery, applySelector, SuccessResult, ErrorResult]

/-- Witness for C2 (amended): a succeeding selector at a concrete settled
input produces `success`, and a throwing selector produces the
selector-failed error preserving the thrown `Error` as cause. -/
theorem useAppQuery_selector_witness :
    (@useAppQuery Nat Nat Nat Unit Unit
        ⟨fun d => Except.ok (d + 1), false, RequestPolicy.cacheFirst⟩
        ⟨some 5, false, none⟩ (fun _ => ())).result = QueryResult.success 6 ∧
    (@useAppQuery Nat Nat Nat Unit Unit
        ⟨fun _ => Except.error (Thrown.jsError 7), false, RequestPolicy.cacheFirst⟩
        ⟨some 5, false, none⟩ (fun _ => ())).result
      = QueryResult.error (AppError.selectorError (some 7)) :=
  ⟨(useAppQuery_selector _ _ _ 5 rfl rfl rfl rfl).1 6 rfl,
   (useAppQuery_selector _ _ _ 5 rfl rfl rfl rfl).2.1 7 rfl⟩

/-- Claim C3: the retry wrapper's returned result follows the priority order:
an exhausted budget (`n ≥ maxRetryCount`) yields the max-retry-count-exceeded
error regardless of the classifier; else a `'bail'` verdict yields the bailed
error; else a `true` verdict yields `retrying` with the current count `n`;
else (`false`) the classifier's whole return value passes through unchanged.
The predicate is evaluated on `__rawValue`, i.e. the raw client data. -/
theorem useRetryableQuery_priority {Data S E C R : Type}
    (input : UseRetryableQueryProps Data S E) (n : Nat)
    (client : ClientState Data C) (exec : RequestPolicy → R) :
    (n ≥ input.maxRetryCount →
      (useRetryableQuery input n client exec).returned.result
        = QueryResult.error (AppError.plainError "Max retry count exceeded")) ∧
    (n < input.maxRetryCount → input.retryIf client.data = BoolOrBail.bail →
      (useRetryableQuery input n client exec).returned.result
        = QueryResult.error (AppError.plainError "Bailed")) ∧
    (n < input.maxRetryCount → input.retryIf client.data = BoolOrBail.bool true →
      (useRetryableQuery input n client exec).returned.result
        = QueryResult.retrying n) ∧
    (n < input.maxRetryCount → input.retryIf client.data = BoolOrBail.bool false →
      (useRetryableQuery input n client exec).returned
        = (useRetryableQuery input n client exec).query) := by
  have hraw := useAppQuery_rawValue (retryAppQueryProps input n) client exec
  refine ⟨?_, ?_, ?_, ?_⟩
  · intro h
    simp [useRetryableQuery, h, ErrorResult]
  · intro h1 h2
    have h2' : input.retryIf
        (useAppQuery (retryAppQueryProps input n) client exec).__rawValue
        = BoolOrBail.bail := by rw [hraw]; exact h2
    simp [useRetryableQuery, h2', Nat.not_le_of_lt h1, ErrorResult]
  · intro h1 h2
    have h2' : input.retryIf
        (useAppQuery (retryAppQueryProps input n) client exec).__rawValue
        = BoolOrBail.bool true := by rw [hraw]; exact h2
    simp [useRetryableQuery, h2', Nat.not_le_of_lt h1, RetryingResult]
  · intro h1 h2
    have h2' : input.retryIf
        (useAppQuery (retryAppQueryProps input n) client exec).__rawValue
        = BoolOrBail.bool false := by rw [hraw]; exact h2
    simp [useRetryableQuery, h2', Nat.not_le_of_lt h1]

/-- Witness for C3: with `maxRetryCount = 2` and counter `0`, a bailing
predicate yields the bailed error, and with counter `2` the budget override
wins even though the predicate still bails. -/
theorem useRetryableQuery_priority_witness :
    (@useRetryableQuery Nat Nat Unit Unit Unit
        ⟨false, fun d => Except.ok d, fun _ => BoolOrBail.bail, none, 2⟩ 0
        ⟨some 5, false, none⟩ (fun _ => ())).returned.result
      = QueryResult.error (AppError.plainError "Bailed") ∧
    (@useRetryableQuery Nat Nat Unit Unit Unit
        ⟨false, fun d => Except.ok d, fun _ => BoolOrBail.bail, none, 2⟩ 2
        ⟨some 5, false, none⟩ (fun _ => ())).returned.result
      = QueryResult.error (AppError.plainError "Max retry count exceeded") :=
  ⟨(useRetryableQuery_priority _ 0 _ _).2.1 (by decide) rfl,
   (useRetryableQuery_priority _ 2 _ _).1 (by decide)⟩

/-- Claim C4: the effect body schedules a delayed retry exactly when the
predicate on the raw pre-selector data returns boolean `true`, the classified
result is currently `fetching`, and `n < maxRetryCount`; the scheduled delay
is the delay function applied to the next attempt number `n + 1`, defaulting
to `(n + 1) * 1000` milliseconds; and the deferred callback, when it runs with
the budget not yet exhausted, increments the counter and invokes the forced
refetch.  (The effect body is modelled per execution; React skips re-running
it while its dependencies `[shouldRetry, query.result.status]` are unchanged.) -/
theorem useRetryableQuery_scheduling {Data S E C R : Type}
    (input : UseRetryableQueryProps Data S E) (n : Nat)
    (client : ClientState Data C) (exec : RequestPolicy → R) (mounted : Bool) :
    ((useRetryableQuery input n client exec).scheduledDelay ≠ none ↔
      (input.retryIf client.data = BoolOrBail.bool true ∧
       (useRetryableQuery input n client exec).query.result = QueryResult.fetching ∧
       n < input.maxRetryCount)) ∧
    (input.retryDelay = none →
      (useRetryableQuery input n client exec).scheduledDelay ≠ none →
      (useRetryableQuery input n client exec).scheduledDelay
        = some ((n + 1) * 1000)) ∧
    (∀ f, input.retryDelay = some f →
      (useRetryableQuery input n client exec).scheduledDelay ≠ none →
      (useRetryableQuery input n client exec).scheduledDelay = some (f (n + 1))) ∧
    (n < input.maxRetryCount → retryFire mounted n input.maxRetryCount
      = (n + 1, true)) := by
  have hraw := useAppQuery_rawValue (retryAppQueryProps input n) client exec
  have hfet : ∀ r : QueryResult S E C, r.isFetching = true ↔ r = QueryResult.fetching := by
    intro r
    cases r <;> simp [QueryResult.isFetching]
  refine ⟨?_, ?_, ?_, ?_⟩
  · simp only [useRetryableQuery, hraw]
    constructor
    · intro h
      split at h
      · simp at h
      · split at h
        · simp at h
        · split at h
          · simp at h
          · rename_i hA hB hC
            simp only [Bool.not_eq_true'] at hB
            refine ⟨not_ne_iff.mp hA, ?_, by omega⟩
            rw [← hfet]
            simpa using hB
    · rintro ⟨h1, h2, h3⟩
      simp [h1, (hfet _).mpr h2, Nat.not_le_of_lt h3, retryDelayMs]
  · intro hdef h
    simp only [useRetryableQuery, hraw] at h ⊢
    split at h
    · simp at h
    split at h
    · simp at h
    split at h
    · simp at h
    · simp [*, retryDelayMs, hdef]
  · intro f hf h
    simp only [useRetryableQuery, hraw] at h ⊢
    split at h
    · simp at h
    split at h
    · simp at h
    split at h
    · simp at h
    · simp [*, retryDelayMs, hf]
  · intro h
    simp [retryFire, Nat.not_le_of_lt h]

/-- Witness for C4: with `maxRetryCount = 3`, counter `1`, a retrying
predicate, a fetching client, and no custom delay function, the effect
schedules a retry after `(1 + 1) * 1000 = 2000` ms, and the callback at
counter `1` increments to `2` and refetches. -/
theorem useRetryableQuery_scheduling_witness :
    (@useRetryableQuery Nat Nat Unit Unit Unit
        ⟨false, fun d => Except.ok d, fun _ => BoolOrBail.bool true, none, 3⟩ 1
        ⟨some 5, true, none⟩ (fun _ => ())).scheduledDelay = some 2000 ∧
    retryFire true 1 3 = (2, true) := by
  have h := @useRetryableQuery_scheduling Nat Nat Unit Unit Unit
    ⟨false, fun d => Except.ok d, fun _ => BoolOrBail.bool true, none, 3⟩ 1
    ⟨some 5, true, none⟩ (fun _ => ()) true
  exact ⟨h.2.1 rfl (by decide), h.2.2.2 (by decide)⟩

/-- Counterexample to C5 as stated: the deferred callback is not cancelled by
unmount.  The effect registers no cleanup, so when the delay elapses on an
unmounted instance (`mounted = false`) with the budget not exhausted
(counter `0`, `maxRetryCount = 2`), the callback still increments the counter
to `1` and invokes the refetch — it is not a no-op. -/
theorem retryFire_unmounted_still_fires :
    retryFire false 0 2 = (1, true) ∧ (1, true) ≠ ((0 : Nat), false) := by
  exact ⟨rfl, by decide⟩

/-- Claim C5 (amended): a deferred retry action never fires its
increment-and-refetch step if, by the time its delay elapses, the retry
budget has been exhausted by another path: the callback re-validates
`retryCounts.current >= maxRetryCount` at execution time and is then a no-op.
Unmounting does not cancel it: the callback runs regardless of mount status,
performing the same budget check. -/
theorem retryFire_budget_noop (mounted : Bool) (n maxRetryCount : Nat)
    (h : n ≥ maxRetryCount) : retryFire mounted n maxRetryCount = (n, false) := by
  simp [retryFire, h]

/-- Witness for C5 (amended): with the budget exhausted (counter `3`,
`maxRetryCount = 2`) the callback is a no-op, mounted or not. -/
theorem retryFire_budget_noop_witness :
    retryFire true 3 2 = (3, false) ∧ retryFire false 3 2 = (3, false) :=
  ⟨retryFire_budget_noop true 3 2 (by decide),
   retryFire_budget_noop false 3 2 (by decide)⟩

/-- Claim C6: the underlying query is paused exactly when the caller requests
pause or the attempt counter has reached `maxRetryCount`. -/
theorem useRetryableQuery_pause {Data S E C R : Type}
    (input : UseRetryableQueryProps Data S E) (n : Nat)
    (client : ClientState Data C) (exec : RequestPolicy → R) :
    (useRetryableQuery input n client exec).appQueryProps.paused = true ↔
      (input.pause = true ∨ n ≥ input.maxRetryCount) := by
  simp [useRetryableQuery, retryAppQueryProps, retryShouldPause]

/-- Witness for C6: with `pause = false` and counter `2` meeting
`maxRetryCount = 2`, the underlying query is paused; with counter `1` and no
caller pause it is not. -/
theorem useRetryableQuery_pause_witness :
    (@useRetryableQuery Nat Nat Unit Unit Unit
        ⟨false, fun d => Except.ok d, fun _ => BoolOrBail.bool false, none, 2⟩ 2
        ⟨some 5, false, none⟩ (fun _ => ())).appQueryProps.paused = true ∧
    ¬(@useRetryableQuery Nat Nat Unit Unit Unit
        ⟨false, fun d => Except.ok d, fun _ => BoolOrBail.bool false, none, 2⟩ 1
        ⟨some 5, false, none⟩ (fun _ => ())).appQueryProps.paused = true := by
  constructor
  · exact (useRetryableQuery_pause _ 2 _ _).mpr (Or.inr (by decide))
  · intro h
    rcases (useRetryableQuery_pause _ 1 _ _).mp h with h' | h'
    · exact Bool.false_ne_true h'
    · exact absurd h' (by decide)

/-- Claim C7: with `maxRetryCount = 0`, on every render (any counter value,
any client state, any predicate) the underlying query is paused — so no fetch
occurs — and the returned result is the max-retry-count-exceeded error. -/
theorem useRetryableQuery_zero_budget {Data S E C R : Type}
    (pause : Bool) (selector : Data → Except (Thrown E) S)
    (retryIf : Option Data → BoolOrBail) (retryDelay : Option (Nat → Nat))
    (n : Nat) (client : ClientState Data C) (exec : RequestPolicy → R) :
    (useRetryableQuery ⟨pause, selector, retryIf, retryDelay, 0⟩ n client
        exec).appQueryProps.paused = true ∧
    (useRetryableQuery ⟨pause, selector, retryIf, retryDelay, 0⟩ n client
        exec).returned.result
      = QueryResult.error (AppError.plainError "Max retry count exceeded") := by
  constructor
  · simp [useRetryableQuery, retryAppQueryProps, retryShouldPause]
  · simp [useRetryableQuery, ErrorResult]

/-- Claim C8: the `refetch` returned by the classifier always invokes the
client's execute function with request policy `'network-only'`, whatever
request policy the props configured and whatever state the client is in. -/
theorem useAppQuery_refetch_network_only {Data S E C R : Type}
    (props : UseAppQueryProps Data S E) (client : ClientState Data C)
    (exec : RequestPolicy → R) :
    (useAppQuery props client exec).refetch = exec RequestPolicy.networkOnly := by
  simp only [useAppQuery]
  repeat' split
  all_goals rfl

/-- The error taxonomy exactly as the spec's C9 sources state it: a cause is
one of "selector failed" (selector threw, wrapping the original error),
"no data", "max retry count exceeded", or "bailed".  Defined from the spec's
words, to be compared with what the code produces. -/
def specErrorTaxonomy {E C : Type} : AppError E C → Bool
  | AppError.selectorError _ => true
  | AppError.noDataError => true
  | AppError.plainError msg =>
      msg == "Max retry count exceeded" || msg == "Bailed"
  | AppError.clientError _ => false

/-- Counterexample to C9 as stated: when the client reports an error, the
classifier returns the `error` variant wrapping the client's own
`CombinedError` unchanged (line 234 of the source), which is none of the four
stated causes — in particular the classifier's error cause is not confined to
the union of "selector threw" and "no data returned". -/
theorem classifier_error_outside_taxonomy :
    (@useAppQuery Nat Nat Unit Unit Unit
        ⟨fun d => Except.ok d, false, RequestPolicy.cacheFirst⟩
        ⟨none, false, some ()⟩ (fun _ => ())).result
      = QueryResult.error (AppError.clientError ()) ∧
    specErrorTaxonomy (AppError.clientError () : AppError Unit Unit) = false := by
  exact ⟨rfl, rfl⟩

/-- The taxonomy the code actually observes: the four causes of
`specErrorTaxonomy` plus the underlying client's reported error passed
through unchanged. -/
def observedErrorTaxonomy {E C : Type} : AppError E C → Bool
  | AppError.clientError _ => true
  | e => specErrorTaxonomy e

/-- Helper: every error the classifier produces is a client error passed
through, the no-data cause, or a selector-failed cause. -/
theorem useAppQuery_error_shape {Data S E C R : Type}
    (props : UseAppQueryProps Data S E) (client : ClientState Data C)
    (exec : RequestPolicy → R) (err : AppError E C)
    (h : (useAppQuery props client exec).result = QueryResult.error err) :
    (∃ e, err = AppError.clientError e) ∨ err = AppError.noDataError ∨
      (∃ c, err = AppError.selectorError c) := by
  simp only [useAppQuery] at h
  split at h
  · simp [PausedResult] at h
  split at h
  · simp [FetchingResult] at h
  split at h
  · simp only [ErrorResult, QueryResult.error.injEq] at h
    exact Or.inl ⟨_, h.symm⟩
  split at h
  · simp only [ErrorResult, QueryResult.error.injEq] at h
    exact Or.inr (Or.inl h.symm)
  · simp only [applySelector] at h
    split at h
    · simp [SuccessResult] at h
    · simp only [ErrorResult, QueryResult.error.injEq] at h
      exact Or.inr (Or.inr ⟨_, h.symm⟩)
    · simp only [ErrorResult, QueryResult.error.injEq] at h
      exact Or.inr (Or.inr ⟨_, h.symm⟩)

/-- Claim C9 (amended): every error-variant result of the classifier or the
retry wrapper carries a cause drawn from the taxonomy extended with the
client's reported error passed through unchanged: the classifier's error
cause is a union of the client's error, "no data returned", and "selector
threw" (wrapping the original error); the retry wrapper adds only
"max retry count exceeded" and "bailed".  No error is thrown across the hook
boundary: both embedded hooks are total functions returning results as data. -/
theorem error_taxonomy {Data S E C R : Type}
    (props : UseAppQueryProps Data S E)
    (input : UseRetryableQueryProps Data S E) (n : Nat)
    (client : ClientState Data C) (exec : RequestPolicy → R) :
    (∀ err, (useAppQuery props client exec).result = QueryResult.error err →
      observedErrorTaxonomy err = true) ∧
    (∀ err,
      (useRetryableQuery input n client exec).returned.result
          = QueryResult.error err →
      observedErrorTaxonomy err = true) := by
  constructor
  · intro err h
    rcases useAppQuery_error_shape props client exec err h with
      ⟨e, rfl⟩ | rfl | ⟨c, rfl⟩ <;>
      simp [observedErrorTaxonomy, specErrorTaxonomy]
  · intro err h
    simp only [useRetryableQuery] at h
    split at h
    · simp only [ErrorResult, QueryResult.error.injEq] at h
      simp [← h, observedErrorTaxonomy, specErrorTaxonomy]
    · split at h
      · simp only [ErrorResult, QueryResult.error.injEq] at h
        simp [← h, observedErrorTaxonomy, specErrorTaxonomy]
      · simp [RetryingResult] at h
      · rcases useAppQuery_error_shape _ client exec err h with
          ⟨e, rfl⟩ | rfl | ⟨c, rfl⟩ <;>
          simp [observedErrorTaxonomy, specErrorTaxonomy]

/-- Witness for C9 (amended): concrete error results of both hooks — a
client-error passthrough, and the retry wrapper's bailed error — satisfy the
observed taxonomy. -/
theorem error_taxonomy_witness :
    observedErrorTaxonomy (AppError.clientError () : AppError Unit Unit) = true ∧
    observedErrorTaxonomy
      (AppError.plainError "Bailed" : AppError Unit Unit) = true :=
  ⟨(@error_taxonomy Nat Nat Unit Unit Unit
      ⟨fun d => Except.ok d, false, RequestPolicy.cacheFirst⟩
      ⟨false, fun d => Except.ok d, fun _ => BoolOrBail.bail, none, 2⟩ 0
      ⟨none, false, some ()⟩ (fun _ => ())).1 (AppError.clientError ()) rfl,
   (@error_taxonomy Nat Nat Unit Unit Unit
      ⟨fun d => Except.ok d, false, RequestPolicy.cacheFirst⟩
      ⟨false, fun d => Except.ok d, fun _ => BoolOrBail.bail, none, 2⟩ 0
      ⟨none, false, some ()⟩ (fun _ => ())).2
      (AppError.plainError "Bailed") rfl⟩

/-- Claim C10: whatever the caller passes and whatever the counter is, the
retry wrapper hands the classifier request policy `'network-only'`; its props
type `UseRetryableQueryProps` has no request-policy field, so callers cannot
make retried queries use the cache. -/
theorem useRetryableQuery_network_only {Data S E C R : Type}
    (input : UseRetryableQueryProps Data S E) (n : Nat)
    (client : ClientState Data C) (exec : RequestPolicy → R) :
    (useRetryableQuery input n client exec).appQueryProps.requestPolicy
      = RequestPolicy.networkOnly := rfl

end UrqlWrapper
